import Mathlib

/-!
Shallow embedding of `scripts/ai-code-quality-agent.py` (the AI code quality
agent) and proofs about the claims of its specification.

External effects (subprocess execution, HTTP requests, the filesystem, JSON
decoding of untrusted remote text) are modelled as explicit inputs: each
subprocess call is an `ExecOutcome` value, each remote review call is an
oracle `String → HttpOutcome` (or its already-parsed result), and file
reads are `FileOutcome` values.  All functions are total, which models the
Python functions' catch-all exception handlers making them non-throwing.
-/

namespace AiAgent

/-! ### Python string primitives -/

/-- Test whether `pat` occurs at the head of `s` (list-of-characters form of
a Python startswith test on the remaining input). -/
def listIsPre : List Char → List Char → Bool
  | [], _ => true
  | _ :: _, [] => false
  | a :: as, b :: bs => a == b && listIsPre as bs

/-- Python `pat in s` substring containment, on character lists. -/
def listInfix (pat : List Char) : List Char → Bool
  | [] => pat.isEmpty
  | c :: rest => listIsPre pat (c :: rest) || listInfix pat rest

/-- Python `pat in s` substring containment on strings. -/
def strContains (s pat : String) : Bool :=
  listInfix pat.toList s.toList

/-- Python `s.count(pat)` for a nonempty pattern: the number of
non-overlapping occurrences of `pat` in `s`, scanning left to right.  (The
agent only counts the nonempty patterns `"any"` and `"error TS"`.) -/
def countSubFuel (pat : List Char) : Nat → List Char → Nat
  | 0, _ => 0
  | fuel + 1, s =>
    match s with
    | [] => 0
    | c :: rest =>
      if listIsPre pat (c :: rest) && !pat.isEmpty then
        1 + countSubFuel pat fuel (rest.drop (pat.length - 1))
      else
        countSubFuel pat fuel rest

/-- Python `s.count(pat)` on character lists; the fuel (the input length)
is enough because every step consumes at least one character. -/
def countSubList (pat s : List Char) : Nat :=
  countSubFuel pat s.length s

/-- Python `s.count(pat)` on strings. -/
def strCount (s pat : String) : Nat :=
  countSubList pat.toList s.toList

/-- Python `s.lower()` (ASCII case folding suffices for the markers used). -/
def pyLower (s : String) : String :=
  ⟨s.toList.map Char.toLower⟩

/-- Characters stripped by Python `str.strip()` with no argument (the ASCII
whitespace characters relevant to command output lines). -/
def isPyWhitespace (c : Char) : Bool :=
  c == ' ' || c == '\t' || c == '\n' || c == '\r' || c == '\x0b' || c == '\x0c'

/-- Python `s.strip()`: drop leading and trailing whitespace. -/
def pyStrip (s : String) : String :=
  ⟨((s.toList.dropWhile isPyWhitespace).reverse.dropWhile isPyWhitespace).reverse⟩

/-- Python `s[:n]` prefix slice on strings. -/
def pyTake (n : Nat) (s : String) : String :=
  ⟨s.toList.take n⟩

/-! ### Data model: findings -/

/-- One issue dictionary as built by the agent.  Absent dictionary keys are
`none`; `get` defaults are applied at the use sites, as in the Python. -/
structure Issue where
  type : Option String := none
  severity : Option String := none
  description : Option String := none
  file : Option String := none
  line : Option Int := none
  deriving Repr, DecidableEq

/-- Static heuristic scanner, `analyze_file` lines 240-266: the three
fixed substring rules, applied independently on the same content. -/
def staticIssues (file_path : String) (content : String) : List Issue :=
  (if strContains content "eval(" then
    [{ type := some "security", severity := some "high",
       description := some "Use of eval() detected - potential security risk",
       file := some file_path }]
   else []) ++
  (if strContains content "innerHTML" && !strContains (pyLower content) "sanitize" then
    [{ type := some "security", severity := some "medium",
       description := some "innerHTML usage without sanitization",
       file := some file_path }]
   else []) ++
  (if strCount content "any" > 5 then
    [{ type := some "quality", severity := some "medium",
       description := some "Excessive use of \"any\" type - consider proper typing",
       file := some file_path }]
   else [])

/-- Count of findings in a list that have the given kind and severity. -/
def countFindings (ty sev : String) (issues : List Issue) : Nat :=
  issues.countP (fun i => i.type == some ty && i.severity == some sev)

/-- Python `s.endswith(pat)`. -/
def strEndsWith (s pat : String) : Bool :=
  listIsPre pat.toList.reverse s.toList.reverse

/-- Python `s.split(sep)` for the single-character separator `'\n'`,
accumulating the current piece in reverse. -/
def splitNlAux : List Char → List Char → List String
  | [], acc => [⟨acc.reverse⟩]
  | c :: rest, acc =>
    if c == '\n' then ⟨acc.reverse⟩ :: splitNlAux rest []
    else splitNlAux rest (c :: acc)

/-- Python `s.split('\n')` on strings. -/
def splitNl (s : String) : List String :=
  splitNlAux s.toList []

/-! ### Remote review client, `analyze_code_with_ai` (lines 85-166)

The HTTP POST to the chat-completion endpoint is modelled by an oracle
`String → HttpOutcome` giving, per model identifier, either a response
(status code plus the extracted `choices[0].message.content` text) or a
network-level request exception.  The loop returns the content text whose
response won; the subsequent brace-extraction/JSON-parsing of that text is
downstream of the model loop and not needed by any claim. -/

/-- Outcome of one remote completion request for one model identifier. -/
inductive HttpOutcome where
  | resp (status : Nat) (content : String)
  | netErr (msg : String)
  deriving Repr, DecidableEq

/-- The fixed ordered fallback list of model identifiers (line 117). -/
def models_to_try : List String :=
  ["gpt-3.5-turbo", "gpt-4o-mini", "gpt-4", "codex-mini-latest"]

/-- The model loop (lines 119-161): a 200 response returns its content; any
other status falls through to the next iteration (the 404 branch reaches it
via `continue`, every other status after logging the response text); a
request exception also continues with the next model. -/
def tryModels (oracle : String → HttpOutcome) : List String → Option String
  | [] => none
  | m :: rest =>
    match oracle m with
    | .resp status content =>
      if status == 200 then some content else tryModels oracle rest
    | .netErr _ => tryModels oracle rest

/-- The function `analyze_code_with_ai`: a no-op without a credential, otherwise the
model loop over the fixed list. -/
def analyze_code_with_ai (hasKey : Bool) (oracle : String → HttpOutcome) : Option String :=
  if hasKey then tryModels oracle models_to_try else none

/-- Modelled from the spec (section 4.4) for comparison with the code: the
transition rules as the spec states them — first 200 succeeds with its body,
404 advances to the next candidate, any other non-200 aborts the attempt
sequence, a network-level failure advances. -/
def tryModelsSpecRules (oracle : String → HttpOutcome) : List String → Option String
  | [] => none
  | m :: rest =>
    match oracle m with
    | .resp 200 content => some content
    | .resp 404 _ => tryModelsSpecRules oracle rest
    | .resp _ _ => none
    | .netErr _ => tryModelsSpecRules oracle rest

/-- A run in which the first model yields HTTP 500 and every later model
yields HTTP 200. -/
def oracle500 (m : String) : HttpOutcome :=
  if m == "gpt-3.5-turbo" then .resp 500 "server error" else .resp 200 "second-body"

/-- A run in which the first two models yield HTTP 404 and the third
yields HTTP 200. -/
def oracle404 (m : String) : HttpOutcome :=
  if m == "gpt-4" then .resp 200 "third-body" else .resp 404 "not found"

/-! ### Change-set resolver, `get_changed_files` (lines 168-227) -/

/-- Outcome of one `subprocess.run` call: either the call raised (modelled
by the exception text) or it ran, yielding an exit code and both streams. -/
inductive ExecOutcome where
  | raised (msg : String)
  | ran (returncode : Int) (stdout : String) (stderr : String)
  deriving Repr, DecidableEq

/-- Whether the execution failed: the call raised or exited non-zero. -/
def execFailed : ExecOutcome → Bool
  | .raised _ => true
  | .ran rc _ _ => rc != 0

/-- The list comprehension `[f.strip() for f in out.split('\n') if f.strip()]`. -/
def stripLines (out : String) : List String :=
  ((splitNl out).map pyStrip).filter (fun f => f != "")

/-- Python `f.endswith(('.ts', '.js', '.tsx', '.jsx'))` (line 191). -/
def isSourceFile (f : String) : Bool :=
  strEndsWith f ".ts" || strEndsWith f ".js" || strEndsWith f ".tsx" || strEndsWith f ".jsx"

/-- The final fallback block (lines 213-225): run `find src -name *.ts -o
-name *.js`; on success return the first 5 non-blank lines, on a raised
call or a non-zero exit return the empty list. -/
def fallbackScan (sfind : ExecOutcome) : List String :=
  match sfind with
  | .raised _ => []
  | .ran rc out _ => if rc == 0 then (stripLines out).take 5 else []

/-- The extension-filtered stripped stdout lines of a successful diff, and
`[]` for a failed one (the value of `ts_js_files` on line 191). -/
def matchedFiles : ExecOutcome → List String
  | .raised _ => []
  | .ran rc out _ => if rc == 0 then (stripLines out).filter isSourceFile else []

/-- The resolver `get_changed_files`: `diff` is the `git diff --name-only` call (against
`origin/main...HEAD` when a PR number is set, else `HEAD~1 HEAD`), `find`
the in-try `find src` call (four patterns, capped at 10), and `sfind` the
fallback-block `find src` call (two patterns, capped at 5).  A raised diff
or find call lands in the outer `except` and then in the fallback block;
a non-zero diff exit skips the `returncode == 0` body and also reaches the
fallback block; a non-zero in-try find exit returns the (empty)
`ts_js_files` list. -/
def get_changed_files (pr_number : Option String) (diff find sfind : ExecOutcome) :
    List String :=
  match diff with
  | .raised _ => fallbackScan sfind
  | .ran rc out _ =>
    if rc == 0 then
      let files := stripLines out
      let ts_js_files := files.filter isSourceFile
      if ts_js_files.isEmpty && pr_number.isNone then
        match find with
        | .raised _ => fallbackScan sfind
        | .ran rc2 out2 _ =>
          if rc2 == 0 then (stripLines out2).take 10 else ts_js_files
      else ts_js_files
    else fallbackScan sfind

/-- Eleven source-file names, one per line, as diff stdout. -/
def elevenFiles : String :=
  "a0.ts\na1.ts\na2.ts\na3.ts\na4.ts\na5.ts\na6.ts\na7.ts\na8.ts\na9.ts\nb0.ts"

/-! ### External tool invoker (lines 45-83) -/

/-- The result dictionaries of `run_typescript_check` and
`run_security_audit`; an absent dictionary key is `none`. -/
structure PyResult where
  success : Option Bool := none
  stdout : Option String := none
  stderr : Option String := none
  error_count : Option Nat := none
  vulnerabilities : Option (List (String × Option String)) := none
  metadata : Option String := none
  error : Option String := none
  deriving Repr, DecidableEq

/-- The runner `run_typescript_check`: a raised subprocess call is caught and becomes
`{'success': False, 'error': str(e)}`; otherwise the exit code and streams
are captured and `error TS` occurrences in stderr are counted. -/
def run_typescript_check (tsExec : ExecOutcome) : PyResult :=
  match tsExec with
  | .raised msg => { success := some false, error := some msg }
  | .ran rc out err =>
    { success := some (rc == 0), stdout := some out, stderr := some err,
      error_count := some (if err != "" then strCount err "error TS" else 0) }

/-- The decoded audit JSON: the `vulnerabilities` dict is a list of
(package, optional severity) pairs, `metadata` is kept abstract; the
`.get(..., {})` defaults for absent keys are already applied. -/
structure AuditJson where
  vulnerabilities : List (String × Option String) := []
  metadata : String := ""
  deriving Repr, DecidableEq

/-- The runner `run_security_audit`: `jsonLoads` models `json.loads` on the audit
stdout (an oracle because the tool output is untrusted external data).  A
raised subprocess call or a decode failure is caught and becomes
`{'error': str(e)}` — with no success flag; an empty stdout yields the
empty dict; the exit code is never inspected. -/
def run_security_audit (auditExec : ExecOutcome)
    (jsonLoads : String → Except String AuditJson) : PyResult :=
  match auditExec with
  | .raised msg => { error := some msg }
  | .ran _ out _ =>
    if out != "" then
      match jsonLoads out with
      | .ok audit_data =>
        { vulnerabilities := some audit_data.vulnerabilities,
          metadata := some audit_data.metadata }
      | .error msg => { error := some msg }
    else {}

/-! ### Per-file analysis, `analyze_file` (lines 229-291) -/

/-- Outcome of looking up and reading one file. -/
inductive FileOutcome where
  | missing
  | readErr (msg : String)
  | content (text : String)

/-- The parsed result of a successful remote review for one file:
the `issues` list and the `suggestions` list of the decoded JSON. -/
structure ReviewData where
  issues : List Issue := []
  suggestions : List String := []

/-- The run's accumulating `analysis_results` lists that `analyze_file`
touches. -/
structure AnalysisState where
  issues : List Issue := []
  suggestions : List String := []
  deriving Repr, DecidableEq

/-- The assignment `issue['file'] = file_path` on an AI-returned issue (line 275). -/
def setIssueFile (file_path : String) (i : Issue) : Issue :=
  { i with file := some file_path }

/-- Per-file analysis `analyze_file`: a missing file or a raised read leaves the
state unchanged; otherwise the static findings are collected and, when a
credential is configured and the content is under 5000 characters, the
remote review result (`ai`, an oracle input: the value
`analyze_code_with_ai` would produce for this file) contributes its issues
(tagged with the file path) and its prefixed suggestions.  The returned
flag records whether the remote review request was attempted. -/
def analyze_file (hasKey : Bool) (file_path : String) (fo : FileOutcome)
    (ai : Option ReviewData) (st : AnalysisState) : AnalysisState × Bool :=
  match fo with
  | .missing => (st, false)
  | .readErr _ => (st, false)
  | .content text =>
    let issues := staticIssues file_path text
    if hasKey ∧ text.length < 5000 then
      match ai with
      | some r =>
        ({ issues := st.issues ++ (issues ++ r.issues.map (setIssueFile file_path)),
           suggestions := st.suggestions ++
             r.suggestions.map (fun s => file_path ++ ": " ++ s) }, true)
      | none => ({ st with issues := st.issues ++ issues }, true)
    else
      ({ st with issues := st.issues ++ issues }, false)

/-- A file body of 5000 characters (at the size cutoff for remote review). -/
def bigContent : String :=
  ⟨List.replicate 5000 'a'⟩

/-! ### Report rendering, `generate_report` (lines 310-362) -/

/-- Python `str.title()` on the character list, tracking whether the
previous character was a letter. -/
def pyTitleAux : List Char → Bool → List Char
  | [], _ => []
  | c :: rest, prevAlpha =>
    if c.isAlpha then
      (if prevAlpha then c.toLower else c.toUpper) :: pyTitleAux rest true
    else
      c :: pyTitleAux rest false

/-- Python `s.title()`. -/
def pyTitle (s : String) : String :=
  ⟨pyTitleAux s.toList false⟩

/-- The per-severity emoji of the summary tally (line 345). -/
def severityEmoji (sev : String) : String :=
  if sev == "high" then "🔴" else if sev == "medium" then "🟡" else "🟢"

/-- The TypeScript section of the report (lines 320-326): a falsy or absent
success flag renders the FAILED line with the defaulted error count, plus a
truncated stderr block when stderr is non-blank. -/
def tsSection (ts_check : PyResult) : String :=
  if ts_check.success == some true then
    "✅ **TypeScript Strict Mode:** PASSED\n"
  else
    let base := "❌ **TypeScript Strict Mode:** FAILED (" ++
      toString (ts_check.error_count.getD 0) ++ " errors)\n"
    match ts_check.stderr with
    | some s => if s != "" then base ++ "```\n" ++ pyTake 500 s ++ "...\n```\n" else base
    | none => base

/-- The security section (lines 329-334): a non-empty vulnerabilities dict
renders the totals line, anything else the all-clear line. -/
def securitySection (security_audit : PyResult) : String :=
  let vulnerabilities := security_audit.vulnerabilities.getD []
  if vulnerabilities.isEmpty then
    "✅ **Security Audit:** No vulnerabilities found\n"
  else
    "🔒 **Security Vulnerabilities:** " ++ toString vulnerabilities.length ++
      " found (" ++ toString (vulnerabilities.countP (fun v => v.2 == some "high")) ++
      " high severity)\n"

/-- The per-severity tally lines (lines 342-346). -/
def qualitySection (issues : List Issue) : String :=
  "\n## 🔍 Code Quality Issues\n" ++
  String.join (["high", "medium", "low"].map (fun sev =>
    severityEmoji sev ++ " **" ++ pyTitle sev ++ ":** " ++
    toString (issues.countP (fun i => i.severity.getD "unknown" == sev)) ++ "\n"))

/-- One detailed-issue bullet (lines 352-354), with the `get` defaults of
the Python and the file sub-bullet for a truthy file entry. -/
def issueLine (issue : Issue) : String :=
  "- **" ++ pyTitle (issue.type.getD "unknown") ++ "** (" ++
    issue.severity.getD "unknown" ++ "): " ++
    issue.description.getD "No description" ++ "\n" ++
  (match issue.file with
   | some f => if f != "" then "  - File: `" ++ f ++ "`\n" else ""
   | none => "")

/-- The detailed-issues section (lines 349-354), capped at 10 issues. -/
def detailedSection (issues : List Issue) : String :=
  if issues.isEmpty then ""
  else "\n## 📋 Detailed Issues\n" ++ String.join ((issues.take 10).map issueLine)

/-- The suggestions section (lines 357-360), capped at 5 entries. -/
def suggestionsSection (suggestions : List String) : String :=
  if suggestions.isEmpty then ""
  else "\n## 💡 AI Suggestions\n" ++
    String.join ((suggestions.take 5).map (fun s => "- " ++ s ++ "\n"))

/-- The full rendered report text: the header with the run timestamp and
the analyzed-file count, then the tool, tally, detail and suggestion
sections in order. -/
def renderReport (timestamp : String) (ts_check security_audit : PyResult)
    (numFiles : Nat) (issues : List Issue) (suggestions : List String) : String :=
  "# 🤖 AI Code Quality Analysis Report\n\n**Generated:** " ++ timestamp ++
    "\n**Analyzed Files:** " ++ toString numFiles ++ "\n\n## 📊 Summary\n\n" ++
  tsSection ts_check ++
  securitySection security_audit ++
  qualitySection issues ++
  detailedSection issues ++
  suggestionsSection suggestions

/-! ### The full run, `generate_report` and `main` (lines 293-425) -/

/-- All external inputs of one process run: the credential flag, the PR
number, the five subprocess outcomes, the audit JSON decoder, the per-file
read outcomes, the per-file remote-review results, and the timestamp taken
at construction. -/
structure RunInput where
  hasKey : Bool
  pr_number : Option String
  diffExec : ExecOutcome
  findExec : ExecOutcome
  sfindExec : ExecOutcome
  tsExec : ExecOutcome
  auditExec : ExecOutcome
  jsonLoads : String → Except String AuditJson
  fileOf : String → FileOutcome
  aiOf : String → Option ReviewData
  timestamp : String

/-- The per-file analysis loop of `generate_report` (lines 305-307),
threading the accumulating state through `analyze_file`. -/
def analyzeFiles (inp : RunInput) (files : List String) : AnalysisState :=
  files.foldl (fun st f => (analyze_file inp.hasKey f (inp.fileOf f) (inp.aiOf f) st).1) {}

/-- The driver `generate_report`: run both tools, resolve the change set, analyze the
first 10 files, and render; returns the report text and the final
accumulated state. -/
def generate_report (inp : RunInput) : String × AnalysisState :=
  let ts_check := run_typescript_check inp.tsExec
  let security_audit := run_security_audit inp.auditExec inp.jsonLoads
  let changed_files := get_changed_files inp.pr_number inp.diffExec inp.findExec inp.sfindExec
  let finalState := analyzeFiles inp (changed_files.take 10)
  (renderReport inp.timestamp ts_check security_audit changed_files.length
     finalState.issues finalState.suggestions, finalState)

/-- The exit code of `main` (lines 416-422): 1 when the recorded issues
contain a high-severity finding, 0 otherwise.  Report writing and the PR
comment post (lines 399-410) do not influence it: the post's failure is
absorbed into a printed message. -/
def mainExitCode (inp : RunInput) : Nat :=
  if ((generate_report inp).2.issues.filter (fun i => i.severity == some "high")).isEmpty
  then 0 else 1

/-- The spec's end-to-end scenario: no credential, a single changed file
whose content is exactly `eval(userInput)`. -/
def evalScenario : RunInput where
  hasKey := false
  pr_number := none
  diffExec := .ran 0 "file1.ts\n" ""
  findExec := .ran 0 "" ""
  sfindExec := .ran 0 "" ""
  tsExec := .ran 0 "" ""
  auditExec := .ran 0 "" ""
  jsonLoads := fun _ => .error "unused"
  fileOf := fun f => if f == "file1.ts" then .content "eval(userInput)" else .missing
  aiOf := fun _ => none
  timestamp := "2025-01-01T00:00:00"

end AiAgent

namespace AiAgent

/-- C7: the static scanner emits exactly one high-severity security finding
when the content contains a dynamic-evaluation call (the substring `eval(`),
and none otherwise. -/
theorem eval_rule_exact (file_path content : String) :
    countFindings "security" "high" (staticIssues file_path content)
      = if strContains content "eval(" then 1 else 0 := by
  unfold staticIssues countFindings
  split_ifs <;> simp_all [List.countP_append, List.countP_cons]

/-- C8: the static scanner emits exactly one medium-severity security finding
for content that contains the raw-HTML injection marker `innerHTML` and has no
sanitization marker, and emits no such finding when the lowercased content
contains `sanitize` (a sanitization marker in any letter case). -/
theorem innerHTML_rule_exact (file_path content : String) :
    (strContains content "innerHTML" = true →
      strContains (pyLower content) "sanitize" = false →
      countFindings "security" "medium" (staticIssues file_path content) = 1) ∧
    (strContains (pyLower content) "sanitize" = true →
      countFindings "security" "medium" (staticIssues file_path content) = 0) := by
  unfold staticIssues countFindings
  constructor
  · intro h1 h2
    split_ifs <;> simp_all [List.countP_append, List.countP_cons]
  · intro h
    split_ifs <;> simp_all [List.countP_append, List.countP_cons]

/-- Witness for C8 at concrete contents: `el.innerHTML = x` yields one
medium security finding, and `el.innerHTML = Sanitize(x)` yields none. -/
theorem innerHTML_rule_exact_w :
    countFindings "security" "medium" (staticIssues "f.ts" "el.innerHTML = x") = 1 ∧
    countFindings "security" "medium" (staticIssues "f.ts" "el.innerHTML = Sanitize(x)") = 0 :=
  ⟨(innerHTML_rule_exact "f.ts" "el.innerHTML = x").1 (by decide) (by decide),
   (innerHTML_rule_exact "f.ts" "el.innerHTML = Sanitize(x)").2 (by decide)⟩

/-- C9: the static scanner emits exactly one medium-severity quality finding
when the content has more than five occurrences of the untyped-escape marker
`any`, and none when it has five or fewer. -/
theorem any_rule_exact (file_path content : String) :
    (strCount content "any" > 5 →
      countFindings "quality" "medium" (staticIssues file_path content) = 1) ∧
    (strCount content "any" ≤ 5 →
      countFindings "quality" "medium" (staticIssues file_path content) = 0) := by
  unfold staticIssues countFindings
  constructor
  · intro h
    split_ifs <;> simp_all [List.countP_append, List.countP_cons]
  · intro h
    split_ifs <;> simp_all [List.countP_append, List.countP_cons] <;> omega

/-- Witness for C9 at concrete contents: six `any`s yield one medium quality
finding, five yield none. -/
theorem any_rule_exact_w :
    countFindings "quality" "medium" (staticIssues "f.ts" "any any any any any any") = 1 ∧
    countFindings "quality" "medium" (staticIssues "f.ts" "any any any any any") = 0 :=
  ⟨(any_rule_exact "f.ts" "any any any any any any").1 (by decide),
   (any_rule_exact "f.ts" "any any any any any").2 (by decide)⟩

/-- C1 (counterexample): with the first model answering HTTP 500 and the
next one HTTP 200, the code returns the later model's body — it does not
abort the attempt sequence on the non-404 failure as the claimed transition
rules dictate. -/
theorem ai_loop_spec_rules_cex :
    analyze_code_with_ai true oracle500 ≠ tryModelsSpecRules oracle500 models_to_try := by
  decide

/-- C1 (amended): with a credential configured the fixed ordered model list
is tried in order; the first HTTP 200 stops the sequence and its body is the
returned result, while a 404, any other non-200 status, and a network-level
request failure all just advance to the next candidate model. -/
theorem ai_loop_transitions (oracle : String → HttpOutcome) (m : String)
    (rest : List String) :
    analyze_code_with_ai true oracle = tryModels oracle models_to_try ∧
    (∀ c, oracle m = .resp 200 c → tryModels oracle (m :: rest) = some c) ∧
    (∀ st c, oracle m = .resp st c → st ≠ 200 →
      tryModels oracle (m :: rest) = tryModels oracle rest) ∧
    (∀ e, oracle m = .netErr e → tryModels oracle (m :: rest) = tryModels oracle rest) := by
  refine ⟨rfl, ?_, ?_, ?_⟩
  · intro c h
    simp [tryModels, h]
  · intro st c h hne
    simp [tryModels, h, hne]
  · intro e h
    simp [tryModels, h]

/-- Witness for C1: in the run where the first two models 404, the loop
advances past the first model. -/
theorem ai_loop_transitions_w :
    tryModels oracle404 ["gpt-3.5-turbo", "gpt-4o-mini", "gpt-4", "codex-mini-latest"]
      = tryModels oracle404 ["gpt-4o-mini", "gpt-4", "codex-mini-latest"] :=
  (ai_loop_transitions oracle404 "gpt-3.5-turbo"
      ["gpt-4o-mini", "gpt-4", "codex-mini-latest"]).2.2.1 404 "not found"
    (by decide) (by decide)

/-- C2 (counterexample): when the git diff call raises but the fallback
`find` scan succeeds, the resolver returns that scan's files, not the empty
list. -/
theorem diff_failure_empty_cex :
    get_changed_files none (.raised "git failed") (.ran 0 "" "")
        (.ran 0 "src/a.ts\n" "") ≠ [] := by
  decide

/-- C2 (amended): when the diff call fails (raises or exits non-zero) the
resolver never raises: it returns the capped fallback directory scan, which
is the empty list whenever that scan also fails. -/
theorem diff_failure_returns_fallback (pr_number : Option String)
    (diff find sfind : ExecOutcome) (h : execFailed diff = true) :
    get_changed_files pr_number diff find sfind = fallbackScan sfind ∧
    (execFailed sfind = true → get_changed_files pr_number diff find sfind = []) := by
  have hmain : get_changed_files pr_number diff find sfind = fallbackScan sfind := by
    cases diff with
    | raised m => rfl
    | ran rc out err =>
      simp only [execFailed, bne_iff_ne, ne_eq, decide_eq_true_eq] at h
      simp [get_changed_files, h]
  refine ⟨hmain, fun hf => ?_⟩
  rw [hmain]
  cases sfind with
  | raised m => rfl
  | ran rc out err =>
    simp only [execFailed, bne_iff_ne, ne_eq, decide_eq_true_eq] at hf
    simp [fallbackScan, hf]

/-- Witness for C2: a raised diff followed by a raised fallback scan yields
the empty list. -/
theorem diff_failure_returns_fallback_w :
    get_changed_files none (ExecOutcome.raised "git failed") (ExecOutcome.ran 0 "" "")
        (ExecOutcome.raised "find failed") = [] :=
  (diff_failure_returns_fallback none (ExecOutcome.raised "git failed")
      (ExecOutcome.ran 0 "" "") (ExecOutcome.raised "find failed") (by decide)).2 (by decide)

/-- C3 (counterexample): a successful PR diff listing eleven source files is
returned whole — the resolver applies no cap on the diff paths, exceeding
the fixed cap of 10. -/
theorem resolver_cap_cex :
    10 < (get_changed_files (some "42") (.ran 0 elevenFiles "") (.ran 0 "" "")
            (.ran 0 "" "")).length := by
  decide

/-- C3 (amended): the caps apply only to the directory-scan fallbacks:
whenever the diff yields no matching source files (in particular whenever
it fails) the resolver returns at most 10 entries; a successful diff's
matching file list is returned uncapped. -/
theorem resolver_fallback_cap (pr_number : Option String)
    (diff find sfind : ExecOutcome) (h : matchedFiles diff = []) :
    (get_changed_files pr_number diff find sfind).length ≤ 10 := by
  have hfb : ∀ x : ExecOutcome, (fallbackScan x).length ≤ 10 := by
    intro x
    cases x with
    | raised m => simp [fallbackScan]
    | ran rc out err =>
      by_cases hrc : (rc == 0) = true <;>
        simp [fallbackScan, hrc, List.length_take]
  cases diff with
  | raised m => exact hfb sfind
  | ran rc out err =>
    by_cases hrc : (rc == 0) = true
    · have hm : (stripLines out).filter isSourceFile = [] := by
        simpa [matchedFiles, hrc] using h
      cases pr_number with
      | some p => simp [get_changed_files, hrc, hm]
      | none =>
        cases find with
        | raised m2 =>
          simpa [get_changed_files, hrc, hm] using hfb sfind
        | ran rc2 out2 err2 =>
          by_cases hrc2 : (rc2 == 0) = true <;>
            simp [get_changed_files, hrc, hm, hrc2, List.length_take]
    · simpa [get_changed_files, hrc] using hfb sfind

/-- Witness for C3: a failed diff with a two-file fallback scan stays under
the cap. -/
theorem resolver_fallback_cap_w :
    (get_changed_files none (ExecOutcome.raised "git failed") (ExecOutcome.ran 0 "" "")
        (ExecOutcome.ran 0 "src/a.ts\nsrc/b.ts\n" "")).length ≤ 10 :=
  resolver_fallback_cap none (ExecOutcome.raised "git failed") (ExecOutcome.ran 0 "" "")
    (ExecOutcome.ran 0 "src/a.ts\nsrc/b.ts\n" "") (by decide)

/-- C4 (counterexample): on a raised audit subprocess call the audit
runner's result carries only the error message — its success field is
absent, not `false` as the claim states for both runners. -/
theorem audit_no_success_flag_cex :
    (run_security_audit (ExecOutcome.raised "npm not found")
        (fun _ => Except.error "unused")).success = none ∧
    ¬ ((run_security_audit (ExecOutcome.raised "npm not found")
        (fun _ => Except.error "unused")).success = some false) := by
  constructor
  · rfl
  · intro hcon
    exact Option.noConfusion hcon

/-- C4 (amended): neither tool runner raises (both are total functions of
the execution outcome): on a raised execution the type-check runner returns
success `false` plus the error message, while the audit runner returns a
result whose only populated field is the error message (no success flag);
malformed audit stdout likewise becomes an error-only result. -/
theorem tool_invoker_failure (msg pmsg out errStream : String) (rc : Int)
    (jsonLoads : String → Except String AuditJson) :
    run_typescript_check (.raised msg) = { success := some false, error := some msg } ∧
    run_security_audit (.raised msg) jsonLoads = { error := some msg } ∧
    (out ≠ "" → jsonLoads out = .error pmsg →
      run_security_audit (.ran rc out errStream) jsonLoads = { error := some pmsg }) := by
  refine ⟨rfl, rfl, fun hout hp => ?_⟩
  simp [run_security_audit, hout, hp]

/-- Witness for C4: malformed (non-JSON) audit stdout yields the error-only
result. -/
theorem tool_invoker_failure_w :
    run_security_audit (ExecOutcome.ran 1 "not json" "")
        (fun _ => Except.error "Expecting value")
      = { error := some "Expecting value" } :=
  (tool_invoker_failure "m" "Expecting value" "not json" "" 1
      (fun _ => Except.error "Expecting value")).2.2 (by decide) rfl

/-- C5: the process exit code is 1 exactly when the recorded findings
contain a high-severity one after the full run, and 0 for every other input
(tool, network, read and decode failures are all absorbed); in particular
the run over the single changed file whose content is exactly
`eval(userInput)` exits with code 1. -/
theorem exit_code_iff_high_finding (inp : RunInput) :
    (mainExitCode inp = 1 ↔
      ∃ i ∈ (generate_report inp).2.issues, i.severity = some "high") ∧
    mainExitCode evalScenario = 1 := by
  constructor
  · unfold mainExitCode
    by_cases hc : ((generate_report inp).2.issues.filter
        (fun i => i.severity == some "high")).isEmpty = true
    · rw [if_pos hc]
      rw [List.isEmpty_iff, List.filter_eq_nil_iff] at hc
      constructor
      · intro h
        exact absurd h (by omega)
      · rintro ⟨i, hi, hsev⟩
        exact absurd (by simp [hsev]) (hc i hi)
    · rw [if_neg hc]
      rw [Bool.not_eq_true, List.isEmpty_eq_false_iff_exists_mem] at hc
      obtain ⟨i, hi⟩ := hc
      rw [List.mem_filter] at hi
      exact ⟨fun _ => ⟨i, hi.1, by simpa using hi.2⟩, fun _ => rfl⟩
  · decide

/-- C6 (counterexample): two invocations with identical ToolResults, issue
lists and suggestion lists but distinct run timestamps render different
report bytes — the timestamp is interpolated into the report header. -/
theorem render_not_timestamp_free_cex :
    renderReport "2025-01-01T00:00:00" {} {} 0 [] []
      ≠ renderReport "2025-01-02T00:00:00" {} {} 0 [] [] := by
  decide

/-- C6 (amended): report rendering is deterministic once the run timestamp
and the analyzed-file count are also fixed: two invocations agreeing on the
timestamp, both ToolResults, the file count, the finding list and the
suggestion list render byte-identical text. -/
theorem render_deterministic (ts ts' : String) (tc tc' sa sa' : PyResult)
    (n n' : Nat) (issues issues' : List Issue) (suggestions suggestions' : List String)
    (h1 : ts = ts') (h2 : tc = tc') (h3 : sa = sa') (h4 : n = n')
    (h5 : issues = issues') (h6 : suggestions = suggestions') :
    renderReport ts tc sa n issues suggestions
      = renderReport ts' tc' sa' n' issues' suggestions' := by
  rw [h1, h2, h3, h4, h5, h6]

/-- Witness for C6: a report renders identically to itself on equal
inputs. -/
theorem render_deterministic_w :
    renderReport "t" {} {} 0 [] [] = renderReport "t" {} {} 0 [] [] :=
  render_deterministic "t" "t" {} {} {} {} 0 0 [] [] [] [] rfl rfl rfl rfl rfl rfl

/-- C10: a file whose content is 5000 characters or longer never triggers
the remote review request, even with a credential configured: the per-file
analysis appends exactly the static findings and leaves the suggestion list
unchanged. -/
theorem large_file_skips_remote (hasKey : Bool) (file_path text : String)
    (ai : Option ReviewData) (st : AnalysisState) (h : 5000 ≤ text.length) :
    analyze_file hasKey file_path (.content text) ai st
      = ({ issues := st.issues ++ staticIssues file_path text,
           suggestions := st.suggestions }, false) := by
  simp only [analyze_file]
  rw [if_neg]
  rintro ⟨-, hlt⟩
  omega

/-- Witness for C10: the 5000-character file body skips the remote review
and records only the static findings. -/
theorem large_file_skips_remote_w :
    analyze_file true "f.ts" (FileOutcome.content bigContent) none {}
      = ({ issues := [] ++ staticIssues "f.ts" bigContent, suggestions := [] }, false) :=
  large_file_skips_remote true "f.ts" bigContent none {} (by
    have h : bigContent.length = 5000 := by
      show (List.replicate 5000 'a').length = 5000
      rw [List.length_replicate]
    omega)

end AiAgent
